import Mathlib

/-!
Shallow embedding of `mlrun/db/httpdb.py` (class `HTTPRunDB`): the HTTP
run-database client.  Python dictionaries of query parameters become
association lists over `PyVal`; the `requests` transport is abstracted as a
`TransportResult` argument (either a raised `requests.RequestException`
message or a raw HTTP response); Python exceptions become an explicit
`PyExc` error type threaded through `Except`.  Byte strings are modelled as
`List Nat` (one entry per byte).
-/

set_option autoImplicit false

namespace HTTPRunDB

/-- A Python value as it can appear in a query-parameter dict of
`httpdb.py`: the `None` sentinel, a string, an integer, or a list of
strings (label filters). -/
inductive PyVal where
  | none
  | str (s : String)
  | int (i : Int)
  | list (l : List String)
  deriving DecidableEq, Repr

/-- A query-parameter dict: ordered association list, as built literally in
each operation of `httpdb.py`. -/
abbrev Params := List (String × PyVal)

/-- A raw HTTP response as seen through the `requests` library: status
code, reason phrase, response headers and body bytes. -/
structure Response where
  status : Nat
  reason : String
  headers : List (String × String)
  content : List Nat
  deriving DecidableEq, Repr

/-- Outcome of the single `requests.request(...)` call inside `api_call`:
either the client library raised a `requests.RequestException` (connection
error, timeout, ...) carrying a message, or a response came back. -/
inductive TransportResult where
  | exc (cause : String)
  | resp (r : Response)
  deriving DecidableEq, Repr

/-- The Python exceptions raised by `httpdb.py`. -/
inductive PyExc where
  | runDBError (msg : String)
  | unboundLocalError
  | valueError (msg : String)
  | osError (msg : String)
  deriving DecidableEq, Repr

/-- The authentication attached to a request: `kw['auth'] = (user,
password)` when a user is configured, else a bearer token header when a
token is configured, else nothing (`api_call`, lines 63-66). -/
inductive Auth where
  | basic (user password : String)
  | bearer (token : String)
  | noAuth
  deriving DecidableEq, Repr

/-- The client handle: `HTTPRunDB.__init__`. -/
structure Client where
  base_url : String
  user : String
  password : String
  token : String
  deriving DecidableEq, Repr

/-- The exact argument set handed to `requests.request` by `api_call`: the
dict comprehension drops `params` / `data` / `json` entries whose value is
`None`, which the `Option` fields model. -/
structure Request where
  method : String
  url : String
  params : Option Params
  data : Option (List Nat)
  json : Option String
  auth : Auth
  timeout : Nat
  deriving DecidableEq, Repr

/-- `default_project = 'default'` (module constant). -/
def default_project : String := "default"

/-- `bool2str`: booleans are encoded as the literal strings yes / no. -/
def bool2str (val : Bool) : String :=
  if val then "yes" else "no"

/-- `client_auth c` resolves the credential fields exactly as the
`if self.user ... elif self.token ...` chain of `api_call` does. -/
def client_auth (c : Client) : Auth :=
  if c.user ≠ "" then Auth.basic c.user c.password
  else if c.token ≠ "" then Auth.bearer c.token
  else Auth.noAuth

/-- `url = f'{base_url}/api/{path}'` (`api_call`, line 55). -/
def api_url (c : Client) (path : String) : String :=
  c.base_url ++ "/api/" ++ path

/-- `requests.Response.raise_for_status`: raises an `HTTPError` whose
message names the status for 4xx ("Client Error") and 5xx ("Server
Error") codes, and returns silently otherwise.  This is the documented
behavior of the external `requests` library. -/
def raise_for_status_error (r : Response) (url : String) : Option String :=
  if 400 ≤ r.status ∧ r.status < 500 then
    some (toString r.status ++ " Client Error: " ++ r.reason ++ " for url: " ++ url)
  else if 500 ≤ r.status ∧ r.status < 600 then
    some (toString r.status ++ " Server Error: " ++ r.reason ++ " for url: " ++ url)
  else
    Option.none

/-- `requests.Response.ok`: true exactly when `raise_for_status` would not
raise, i.e. when the status code is outside the 4xx/5xx error ranges. -/
def resp_ok (r : Response) : Bool :=
  decide (¬ (400 ≤ r.status ∧ r.status < 600))

/-- The auto-generated transport failure message
`'{} {}, error: {}'.format(method, url, err)` (`api_call`, line 73). -/
def gen_error (method url cause : String) : String :=
  method ++ " " ++ url ++ ", error: " ++ cause

/-- `error = error or '{} {}, error: {}'.format(method, url, err)`:
Python `or` falls through when `error` is `None` or the empty string. -/
def api_error_message (ectx : Option String) (method url cause : String) : String :=
  match ectx with
  | Option.none => gen_error method url cause
  | Option.some s => if s = "" then gen_error method url cause else s

/-- `HTTPRunDB.api_call`: performs exactly one transport invocation (the
returned `Request` is what `requests.request` receives) and translates
every `requests.RequestException` — both a raised connection/timeout error
and the `HTTPError` from `raise_for_status` — into a single `RunDBError`
carrying `api_error_message`.  On success the raw response is returned
unmodified. -/
def api_call (c : Client) (method path : String) (ectx : Option String)
    (params : Option Params) (body : Option (List Nat)) (json : Option String)
    (timeout : Nat) (tr : TransportResult) :
    Except PyExc Response × Request :=
  let url := api_url c path
  let req : Request := ⟨method, url, params, body, json, client_auth c, timeout⟩
  let result : Except PyExc Response :=
    match tr with
    | TransportResult.exc cause =>
        Except.error (PyExc.runDBError (api_error_message ectx method url cause))
    | TransportResult.resp r =>
        match raise_for_status_error r url with
        | Option.some cause =>
            Except.error (PyExc.runDBError (api_error_message ectx method url cause))
        | Option.none => Except.ok r
  (result, req)

/-- `HTTPRunDB._path_of`: resolves an empty project to `default_project`
(Python `project or default_project`), then joins with slashes.  The
source parameter named `prefix` is rendered `kind` here. -/
def _path_of (kind project uid : String) : String :=
  let project2 := if project = "" then default_project else project
  kind ++ "/" ++ project2 ++ "/" ++ uid

/-- Dict lookup with default: Python `d.get(key, dflt)` on a header map. -/
def headers_get (hs : List (String × String)) (key dflt : String) : String :=
  match hs.find? (fun p => p.fst = key) with
  | Option.some p => p.snd
  | Option.none => dflt

/-- Python truthiness of `store_log`'s `body` argument: `not body` is true
for `None` and for the empty byte string. -/
def body_empty (body : Option (List Nat)) : Bool :=
  match body with
  | Option.none => true
  | Option.some bs => bs.isEmpty

/-- The `{'append': bool2str(append)}` dict of `store_log`. -/
def store_log_params (append : Bool) : Params :=
  [("append", PyVal.str (bool2str append))]

/-- `HTTPRunDB.store_log`.  Returns the operation outcome together with the
list of transport invocations performed (`if not body: return` issues
none; otherwise exactly the one POST made by `api_call`). -/
def store_log (c : Client) (uid project : String) (body : Option (List Nat))
    (append : Bool) (tr : TransportResult) : Except PyExc Unit × List Request :=
  if body_empty body then (Except.ok (), [])
  else
    let path := _path_of "log" project uid
    let error := "store log " ++ project ++ "/" ++ uid
    let call := api_call c "POST" path (Option.some error)
      (Option.some (store_log_params append)) body Option.none 20 tr
    (match call.fst with
     | Except.error e => Except.error e
     | Except.ok _ => Except.ok (), [call.snd])

/-- The `{'offset': offset, 'size': size}` dict of `get_log`. -/
def get_log_params (offset size : Int) : Params :=
  [("offset", PyVal.int offset), ("size", PyVal.int size)]

/-- `HTTPRunDB.get_log`.  The local `state` is assigned only inside the
`if resp.headers:` branch of the source, so a response with an empty
header map reaches `return state, resp.content` with `state` unbound:
modelled as `PyExc.unboundLocalError`. -/
def get_log (c : Client) (uid project : String) (offset size : Int)
    (tr : TransportResult) : Except PyExc (String × List Nat) :=
  let path := _path_of "log" project uid
  let error := "get log " ++ project ++ "/" ++ uid
  match (api_call c "GET" path (Option.some error)
      (Option.some (get_log_params offset size)) Option.none Option.none 20 tr).fst with
  | Except.error e => Except.error e
  | Except.ok resp =>
      if resp.headers.isEmpty then Except.error PyExc.unboundLocalError
      else Except.ok (headers_get resp.headers "function_status" "", resp.content)

/-- The polling loop of `watch_log` (`while state in ['pending',
'running']: ...`), fuel-indexed since the source loop is unbounded.
`trs` maps a requested offset to the transport outcome of the `get_log`
issued there.  Returns `(final state, emitted chunks, fetched offsets)`;
`Option.none` means the fuel ran out before a terminal status. -/
def watch_log_loop (c : Client) (uid project : String)
    (trs : Int → TransportResult) :
    Nat → String → List Nat → Int →
    Option (Except PyExc (String × List (List Nat) × List Int))
  | 0, _, _, _ => Option.none
  | Nat.succ fuel, state, text, offset =>
    if state = "pending" ∨ state = "running" then
      let offset2 := offset + Int.ofNat text.length
      match get_log c uid project offset2 0 (trs offset2) with
      | Except.error e => Option.some (Except.error e)
      | Except.ok (state2, text2) =>
        match watch_log_loop c uid project trs fuel state2 text2 offset2 with
        | Option.none => Option.none
        | Option.some (Except.error e) => Option.some (Except.error e)
        | Option.some (Except.ok (fin, emits, fetches)) =>
            Option.some (Except.ok
              (fin, (if text2.isEmpty then [] else [text2]) ++ emits,
               offset2 :: fetches))
    else Option.some (Except.ok (state, [], []))

/-- `HTTPRunDB.watch_log`: first `get_log` at the caller's offset, print
the chunk when non-empty, then (when `watch`) poll while the status stays
in the non-terminal set, advancing the offset by the previous chunk's
length.  Result: `(returned state, chunks printed in order, offsets of
the get_log calls in order)`. -/
def watch_log (c : Client) (uid project : String) (watch : Bool)
    (offset : Int) (trs : Int → TransportResult) (fuel : Nat) :
    Option (Except PyExc (String × List (List Nat) × List Int)) :=
  match get_log c uid project offset 0 (trs offset) with
  | Except.error e => Option.some (Except.error e)
  | Except.ok (state, text) =>
    let emit0 := if text.isEmpty then [] else [text]
    if watch then
      match watch_log_loop c uid project trs fuel state text offset with
      | Option.none => Option.none
      | Option.some (Except.error e) => Option.some (Except.error e)
      | Option.some (Except.ok (fin, emits, fetches)) =>
          Option.some (Except.ok (fin, emit0 ++ emits, offset :: fetches))
    else Option.some (Except.ok (state, emit0, [offset]))

/-- The `{'iter': iter}` dict shared verbatim by `store_run`, `update_run`,
`read_run` and `del_run`. -/
def run_iter_params (iter : Int) : Params :=
  [("iter", PyVal.int iter)]

/-- The params dict of `list_runs`, including the two preceding lines
`project = project or default_project`.  `uid` defaults to `None` in the
source and is inserted as-is; `labels or []` collapses `None` (and the
empty list) to the empty list. -/
def list_runs_params (name : String) (uid : Option String) (project : String)
    (labels : Option (List String)) (state : String) (sort iter : Bool) : Params :=
  let project2 := if project = "" then default_project else project
  [("name", PyVal.str name),
   ("uid", match uid with | Option.none => PyVal.none | Option.some u => PyVal.str u),
   ("project", PyVal.str project2),
   ("label", PyVal.list (labels.getD [])),
   ("state", PyVal.str state),
   ("sort", PyVal.str (bool2str sort)),
   ("iter", PyVal.str (bool2str iter))]

/-- `HTTPRunDB.list_runs` (the `last` argument exists in the source but is
never read).  JSON decoding of the body and the `RunList` wrapper are
external; the raw response stands for the result.  The second component
is the list of transport invocations performed. -/
def list_runs (c : Client) (name : String) (uid : Option String)
    (project : String) (labels : Option (List String)) (state : String)
    (sort : Bool) (last : Int) (iter : Bool) (tr : TransportResult) :
    Except PyExc Response × List Request :=
  let params := list_runs_params name uid project labels state sort iter
  let call := api_call c "GET" "runs" (Option.some "list runs")
    (Option.some params) Option.none Option.none 20 tr
  (call.fst, [call.snd])

/-- The params dict of `del_runs` (with its `project or default_project`
line); `days_ago` is stringified by `str(...)`. -/
def del_runs_params (name project : String) (labels : Option (List String))
    (state : String) (days_ago : Int) : Params :=
  let project2 := if project = "" then default_project else project
  [("name", PyVal.str name),
   ("project", PyVal.str project2),
   ("label", PyVal.list (labels.getD [])),
   ("state", PyVal.str state),
   ("days_ago", PyVal.str (toString days_ago))]

/-- The `{'tag': tag}` dict of `store_artifact`. -/
def store_artifact_params (tag : String) : Params :=
  [("tag", PyVal.str tag)]

/-- The `{'key': key, 'tag': tag}` dict of `del_artifact`. -/
def del_artifact_params (key tag : String) : Params :=
  [("key", PyVal.str key), ("tag", PyVal.str tag)]

/-- The params dict of `list_artifacts` (with its defaulted project). -/
def list_artifacts_params (name project tag : String)
    (labels : Option (List String)) : Params :=
  let project2 := if project = "" then default_project else project
  [("name", PyVal.str name),
   ("project", PyVal.str project2),
   ("tag", PyVal.str tag),
   ("label", PyVal.list (labels.getD []))]

/-- The params dict of `del_artifacts`. -/
def del_artifacts_params (name project tag : String)
    (labels : Option (List String)) (days_ago : Int) : Params :=
  let project2 := if project = "" then default_project else project
  [("name", PyVal.str name),
   ("project", PyVal.str project2),
   ("tag", PyVal.str tag),
   ("label", PyVal.list (labels.getD [])),
   ("days_ago", PyVal.str (toString days_ago))]

/-- The `{'tag': tag}` dict shared by `store_function` and `get_function`. -/
def function_tag_params (tag : String) : Params :=
  [("tag", PyVal.str tag)]

/-- The params dict of `list_functions`. -/
def list_functions_params (name project tag : String)
    (labels : Option (List String)) : Params :=
  let project2 := if project = "" then default_project else project
  [("project", PyVal.str project2),
   ("name", PyVal.str name),
   ("tag", PyVal.str tag),
   ("label", PyVal.list (labels.getD []))]

/-- `HTTPRunDB.remote_builder`.  The request JSON document
(`{'function': runtime.to_dict(), 'with_mlrun': with_mlrun}`) is built by
external serializers and is modelled as the opaque string `req_json`.
`RunDBError` raised by `api_call` is not an `OSError`, so the
`except OSError` clause does not intercept it; `resp.json()` is external,
so the raw response stands for the successful result. -/
def remote_builder (c : Client) (req_json : String) (tr : TransportResult) :
    Except PyExc Response :=
  match (api_call c "POST" "build/function" Option.none Option.none
      Option.none (Option.some req_json) 20 tr).fst with
  | Except.error e => Except.error e
  | Except.ok resp =>
      if resp_ok resp then Except.ok resp
      else Except.error (PyExc.valueError "bad function run response")

/-- The params dict of `get_builder_status`; `offset` is stringified. -/
def get_builder_status_params (name project tag : String) (offset : Int) : Params :=
  [("name", PyVal.str name),
   ("project", PyVal.str project),
   ("tag", PyVal.str tag),
   ("offset", PyVal.str (toString offset))]

/-- The two locals `state` and `pod` computed by `get_builder_status` from
the response headers (both default to the empty string and are filled only
when the header map is non-empty). -/
def get_builder_status_locals (resp : Response) : String × String :=
  (if resp.headers.isEmpty then "" else headers_get resp.headers "function_status" "",
   if resp.headers.isEmpty then "" else headers_get resp.headers "builder_pod" "")

/-- `HTTPRunDB.get_builder_status`: GET on the fixed path `build/status`.
The source computes both locals of `get_builder_status_locals` but its
`return state, resp.content` uses only the first; the `pod` local is
discarded. -/
def get_builder_status (c : Client) (name project tag : String) (offset : Int)
    (tr : TransportResult) : Except PyExc (String × List Nat) :=
  match (api_call c "GET" "build/status" Option.none
      (Option.some (get_builder_status_params name project tag offset))
      Option.none Option.none 20 tr).fst with
  | Except.error e => Except.error e
  | Except.ok resp =>
      if resp_ok resp then
        Except.ok ((get_builder_status_locals resp).fst, resp.content)
      else Except.error (PyExc.valueError "bad function run response")

/-- Collapses a successful response to Python's implicit `return None`:
the operations that extract nothing propagate only the exception. -/
def void_result (r : Except PyExc Response) : Except PyExc Unit :=
  match r with
  | Except.error e => Except.error e
  | Except.ok _ => Except.ok ()

/-- `HTTPRunDB.connect`: health check, `GET healthz` with timeout 3, no
params, no error context. -/
def connect (c : Client) (tr : TransportResult) :
    Except PyExc Unit × List Request :=
  let call := api_call c "GET" "healthz" Option.none Option.none Option.none
    Option.none 3 tr
  (void_result call.fst, [call.snd])

/-- `HTTPRunDB.store_run`: POST the serialized run (the `_as_json(struct)`
serializer is external; its output is the opaque byte string
`struct_json`) under `run/project/uid` with the iter param. -/
def store_run (c : Client) (uid project : String) (iter : Int)
    (struct_json : List Nat) (tr : TransportResult) :
    Except PyExc Unit × List Request :=
  let path := _path_of "run" project uid
  let error := "store run " ++ project ++ "/" ++ uid
  let call := api_call c "POST" path (Option.some error)
    (Option.some (run_iter_params iter)) (Option.some struct_json)
    Option.none 20 tr
  (void_result call.fst, [call.snd])

/-- `HTTPRunDB.update_run`: PATCH, same shape as `store_run`. -/
def update_run (c : Client) (uid project : String) (iter : Int)
    (updates_json : List Nat) (tr : TransportResult) :
    Except PyExc Unit × List Request :=
  let path := _path_of "run" project uid
  let error := "update run " ++ project ++ "/" ++ uid
  let call := api_call c "PATCH" path (Option.some error)
    (Option.some (run_iter_params iter)) (Option.some updates_json)
    Option.none 20 tr
  (void_result call.fst, [call.snd])

/-- `HTTPRunDB.read_run`: GET one run; the `resp.json()['data']` JSON
extraction is external, so the raw response stands for the result. -/
def read_run (c : Client) (uid project : String) (iter : Int)
    (tr : TransportResult) : Except PyExc Response × List Request :=
  let path := _path_of "run" project uid
  let error := "get run " ++ project ++ "/" ++ uid
  let call := api_call c "GET" path (Option.some error)
    (Option.some (run_iter_params iter)) Option.none Option.none 20 tr
  (call.fst, [call.snd])

/-- `HTTPRunDB.del_run`: DELETE one run. -/
def del_run (c : Client) (uid project : String) (iter : Int)
    (tr : TransportResult) : Except PyExc Unit × List Request :=
  let path := _path_of "run" project uid
  let error := "del run " ++ project ++ "/" ++ uid
  let call := api_call c "DELETE" path (Option.some error)
    (Option.some (run_iter_params iter)) Option.none Option.none 20 tr
  (void_result call.fst, [call.snd])

/-- `HTTPRunDB.del_runs`: bulk DELETE on the fixed path `runs`. -/
def del_runs (c : Client) (name project : String)
    (labels : Option (List String)) (state : String) (days_ago : Int)
    (tr : TransportResult) : Except PyExc Unit × List Request :=
  let call := api_call c "DELETE" "runs" (Option.some "del runs")
    (Option.some (del_runs_params name project labels state days_ago))
    Option.none Option.none 20 tr
  (void_result call.fst, [call.snd])

/-- `HTTPRunDB.store_artifact`: POST the serialized artifact (external
`_as_json`, opaque bytes) under `artifact/project/uid` + `/key`. -/
def store_artifact (c : Client) (key : String) (artifact_json : List Nat)
    (uid tag project : String) (tr : TransportResult) :
    Except PyExc Unit × List Request :=
  let path := _path_of "artifact" project uid ++ "/" ++ key
  let error := "store artifact " ++ project ++ "/" ++ uid ++ "/" ++ key
  let call := api_call c "POST" path (Option.some error)
    (Option.some (store_artifact_params tag)) (Option.some artifact_json)
    Option.none 20 tr
  (void_result call.fst, [call.snd])

/-- `HTTPRunDB.read_artifact`: GET with project defaulted, tag defaulting
to `latest`, key appended, and no params at all; extracts the raw body. -/
def read_artifact (c : Client) (key tag project : String)
    (tr : TransportResult) : Except PyExc (List Nat) × List Request :=
  let project2 := if project = "" then default_project else project
  let tag2 := if tag = "" then "latest" else tag
  let path := _path_of "artifact" project2 tag2 ++ "/" ++ key
  let error := "read artifact " ++ project2 ++ "/" ++ key
  let call := api_call c "GET" path (Option.some error) Option.none
    Option.none Option.none 20 tr
  (match call.fst with
   | Except.error e => Except.error e
   | Except.ok resp => Except.ok resp.content, [call.snd])

/-- `HTTPRunDB.del_artifact`: DELETE under `artifact/project/key`. -/
def del_artifact (c : Client) (key tag project : String)
    (tr : TransportResult) : Except PyExc Unit × List Request :=
  let path := _path_of "artifact" project key
  let error := "del artifact " ++ project ++ "/" ++ key
  let call := api_call c "DELETE" path (Option.some error)
    (Option.some (del_artifact_params key tag)) Option.none Option.none 20 tr
  (void_result call.fst, [call.snd])

/-- `HTTPRunDB.list_artifacts`: GET on the fixed path `artifacts`; the
JSON unwrap and `ArtifactList` wrapper are external. -/
def list_artifacts (c : Client) (name project tag : String)
    (labels : Option (List String)) (tr : TransportResult) :
    Except PyExc Response × List Request :=
  let call := api_call c "GET" "artifacts" (Option.some "list artifacts")
    (Option.some (list_artifacts_params name project tag labels))
    Option.none Option.none 20 tr
  (call.fst, [call.snd])

/-- `HTTPRunDB.del_artifacts`: bulk DELETE on the fixed path
`artifacts`. -/
def del_artifacts (c : Client) (name project tag : String)
    (labels : Option (List String)) (days_ago : Int) (tr : TransportResult) :
    Except PyExc Unit × List Request :=
  let call := api_call c "DELETE" "artifacts" (Option.some "del artifacts")
    (Option.some (del_artifacts_params name project tag labels days_ago))
    Option.none Option.none 20 tr
  (void_result call.fst, [call.snd])

/-- `HTTPRunDB.store_function`: POST the function document
(`json.dumps(func)` is external, opaque bytes) under `func/project/name`. -/
def store_function (c : Client) (func_json : List Nat) (name project tag : String)
    (tr : TransportResult) : Except PyExc Unit × List Request :=
  let project2 := if project = "" then default_project else project
  let path := _path_of "func" project2 name
  let error := "store function " ++ project2 ++ "/" ++ name
  let call := api_call c "POST" path (Option.some error)
    (Option.some (function_tag_params tag)) (Option.some func_json)
    Option.none 20 tr
  (void_result call.fst, [call.snd])

/-- `HTTPRunDB.get_function`: GET one function; `resp.json()['func']` is
external, so the raw response stands for the result. -/
def get_function (c : Client) (name project tag : String)
    (tr : TransportResult) : Except PyExc Response × List Request :=
  let project2 := if project = "" then default_project else project
  let path := _path_of "func" project2 name
  let error := "get function " ++ project2 ++ "/" ++ name
  let call := api_call c "GET" path (Option.some error)
    (Option.some (function_tag_params tag)) Option.none Option.none 20 tr
  (call.fst, [call.snd])

/-- `HTTPRunDB.list_functions`: GET on the fixed path `funcs`. -/
def list_functions (c : Client) (name project tag : String)
    (labels : Option (List String)) (tr : TransportResult) :
    Except PyExc Response × List Request :=
  let call := api_call c "GET" "funcs" (Option.some "list functions")
    (Option.some (list_functions_params name project tag labels))
    Option.none Option.none 20 tr
  (call.fst, [call.snd])

/-- A request whose query-parameter map, when present, maps no key to the
`None` sentinel. -/
def request_no_none (req : Request) : Prop :=
  ∀ ps, req.params = Option.some ps → ∀ kv ∈ ps, kv.snd ≠ PyVal.none

/-- Splits a character list at every slash, keeping empty pieces: the
path-segment view of a URL path. -/
def split_slash : List Char → List (List Char)
  | [] => [[]]
  | ch :: rest =>
    let r := split_slash rest
    if ch = '/' then [] :: r
    else (ch :: r.headD []) :: r.tail

/-- The slash-separated segments of a path string. -/
def segments (s : String) : List String :=
  (split_slash s.data).map (fun l => String.mk l)

/-- Byte-string literal helper: the bytes of an ASCII string. -/
def bytes (s : String) : List Nat :=
  s.data.map Char.toNat

/-- A client handle with no credentials, for concrete scenarios. -/
def c0 : Client := ⟨"http://h", "", "", ""⟩

/-- A plain successful response with a status header. -/
def r200 : Response := ⟨200, "OK", [("function_status", "running")], []⟩

/-- A `304 Not Modified` response: no headers, no body. -/
def r304 : Response := ⟨304, "Not Modified", [], []⟩

/-- A successful response whose header map is empty. -/
def resp_nohdr : Response := ⟨200, "OK", [], [65]⟩

/-- A successful response carrying a `function_status` header. -/
def resp_hdr : Response := ⟨200, "OK", [("function_status", "running")], [65]⟩

/-- A builder-status response whose builder pod is `pod-7`. -/
def respA : Response :=
  ⟨200, "OK", [("function_status", "ready"), ("builder_pod", "pod-7")], [66]⟩

/-- The same builder-status response except the pod is `pod-8`. -/
def respB : Response :=
  ⟨200, "OK", [("function_status", "ready"), ("builder_pod", "pod-8")], [66]⟩

/-- The log server of the spec's watcher scenario: status `running` with
body `AB` at offset 0, `running` with `CD` at offset 2, and `completed`
with an empty body from offset 4 on. -/
def c1_server (o : Int) : TransportResult :=
  if o = 0 then
    TransportResult.resp ⟨200, "OK", [("function_status", "running")], bytes "AB"⟩
  else if o = 2 then
    TransportResult.resp ⟨200, "OK", [("function_status", "running")], bytes "CD"⟩
  else
    TransportResult.resp ⟨200, "OK", [("function_status", "completed")], []⟩

/-- A log server that always reports the non-terminal status `running`. -/
def c9_server (_o : Int) : TransportResult :=
  TransportResult.resp ⟨200, "OK", [("function_status", "running")], [72]⟩

/-- A transport-level failure happened: either the request raised, or the
response status is in the range `raise_for_status` rejects. -/
def transport_fails : TransportResult → Prop
  | TransportResult.exc _ => True
  | TransportResult.resp r => 400 ≤ r.status ∧ r.status < 600

/-- A status below 400 passes `raise_for_status` silently. -/
theorem rfs_none_of_lt_400 (r : Response) (url : String) (h : r.status < 400) :
    raise_for_status_error r url = Option.none := by
  unfold raise_for_status_error
  split_ifs with ha hb
  · exact absurd ha (by omega)
  · exact absurd hb (by omega)
  · rfl

/-- A response `raise_for_status` accepts is `ok` in the `requests` sense. -/
theorem resp_ok_of_no_raise (r : Response) (url : String)
    (h : raise_for_status_error r url = Option.none) : resp_ok r = true := by
  unfold raise_for_status_error at h
  unfold resp_ok
  split_ifs at h with ha hb
  simp only [decide_eq_true_eq]
  omega

/-- `api_call` on a response that passes `raise_for_status` returns it. -/
theorem api_call_ok_eval (c : Client) (method path : String)
    (ectx : Option String) (params : Option Params) (body : Option (List Nat))
    (json : Option String) (timeout : Nat) (r : Response)
    (h : raise_for_status_error r (api_url c path) = Option.none) :
    (api_call c method path ectx params body json timeout
      (TransportResult.resp r)).fst = Except.ok r := by
  simp [api_call, h]

/-- Every exception `api_call` raises is a `RunDBError`. -/
theorem api_call_error_runDB (c : Client) (method path : String)
    (ectx : Option String) (params : Option Params) (body : Option (List Nat))
    (json : Option String) (timeout : Nat) (tr : TransportResult) (e : PyExc)
    (h : (api_call c method path ectx params body json timeout tr).fst =
      Except.error e) : ∃ msg, e = PyExc.runDBError msg := by
  cases tr with
  | exc cause =>
    simp [api_call] at h
    exact ⟨_, h.symm⟩
  | resp r =>
    cases hrs : raise_for_status_error r (api_url c path) with
    | none => simp [api_call, hrs] at h
    | some cause =>
      simp [api_call, hrs] at h
      exact ⟨_, h.symm⟩

/-- When `api_call` returns a response, that response passed
`raise_for_status`. -/
theorem api_call_ok_inv (c : Client) (method path : String)
    (ectx : Option String) (params : Option Params) (body : Option (List Nat))
    (json : Option String) (timeout : Nat) (tr : TransportResult) (r : Response)
    (h : (api_call c method path ectx params body json timeout tr).fst =
      Except.ok r) :
    raise_for_status_error r (api_url c path) = Option.none := by
  cases tr with
  | exc cause => simp [api_call] at h
  | resp r2 =>
    cases hrs : raise_for_status_error r2 (api_url c path) with
    | none =>
      simp [api_call, hrs] at h
      subst h
      exact hrs
    | some cause => simp [api_call, hrs] at h

/-- Claim C1: against the scenario server (`running`/`AB` at offset 0,
`running`/`CD` at offset 2, `completed`/empty at offset 4), `watch_log`
with `watch = true` starting at offset 0 emits the bytes of `AB` then of
`CD` in that order, issues its fetches at offsets 0, 2, 4 (each advanced
by the length of the previously fetched chunk), stops polling once the
status leaves the pending/running set, and returns `completed`. -/
theorem watch_log_scenario :
    watch_log c0 "u" "" true 0 c1_server 5 =
      Option.some (Except.ok ("completed", [bytes "AB", bytes "CD"], [0, 2, 4])) :=
  rfl

/-- Claim C4: for every kind and identifier, the path built with an empty
project equals the path built with the default project constant, and has
the form `kind/project/identifier`. -/
theorem path_of_empty_project_default (kind uid : String) :
    _path_of kind "" uid = _path_of kind default_project uid ∧
    _path_of kind "" uid = kind ++ "/" ++ default_project ++ "/" ++ uid :=
  ⟨rfl, rfl⟩

/-- Claim C5 counterexample: with an empty identifier the built path ends
in a slash, i.e. its last slash-separated segment is empty, refuting the
stated invariant that no input produces an empty path segment. -/
theorem path_of_empty_segment_counterexample :
    segments (_path_of "log" "" "") = ["log", "default", ""] ∧
    "" ∈ segments (_path_of "log" "" "") :=
  ⟨rfl, by decide⟩

/-- Claim C5 (amended): the Path Builder always returns
`kind/project/identifier` with the project resolved to the default when
empty, and the project segment is never empty; an empty kind or
identifier, however, does yield an empty first or last segment. -/
theorem path_of_shape_project_nonempty (kind project uid : String) :
    _path_of kind project uid =
      kind ++ "/" ++ (if project = "" then default_project else project) ++ "/" ++ uid ∧
    (if project = "" then default_project else project) ≠ "" := by
  refine ⟨rfl, ?_⟩
  by_cases h : project = "" <;> simp [h, default_project]

/-- Claim C9: with `watch = false`, `watch_log` performs exactly one
`get_log` fetch — at the caller's offset — and returns that fetch's
status immediately, whatever that status is (terminal or not). -/
theorem watch_log_no_watch_single_fetch (c : Client) (uid project : String)
    (offset : Int) (trs : Int → TransportResult) (fuel : Nat)
    (state : String) (text : List Nat)
    (h : get_log c uid project offset 0 (trs offset) = Except.ok (state, text)) :
    watch_log c uid project false offset trs fuel =
      Option.some (Except.ok
        (state, if text.isEmpty then [] else [text], [offset])) := by
  simp [watch_log, h]

/-- Claim C9 witness: one concrete run against a server that always says
`running` — a single fetch at offset 7, immediate return. -/
theorem watch_log_no_watch_single_fetch_witness :
    watch_log c0 "u" "" false 7 c9_server 5 =
      Option.some (Except.ok ("running", [[72]], [7])) :=
  watch_log_no_watch_single_fetch c0 "u" "" 7 c9_server 5 "running" [72] rfl

/-- Claim C2 counterexample: `list_runs` with its `uid` argument left at
its default builds a params dict containing the key `uid` mapped to the
`None` sentinel, and that very dict is the one handed to the transport in
the single request issued. -/
theorem list_runs_uid_none_counterexample :
    (list_runs c0 "" Option.none "" Option.none "" true 0 false
        (TransportResult.resp r200)).snd.map Request.params =
      [Option.some (list_runs_params "" Option.none "" Option.none "" true false)] ∧
    ("uid", PyVal.none) ∈ list_runs_params "" Option.none "" Option.none "" true false :=
  ⟨rfl, by decide⟩

/-- Every query-parameter dict built by the source, taken one `*_params`
definition at a time, maps no key to the `None` sentinel — except the
`uid` entry of `list_runs`, which is covered here only for a supplied
uid. -/
theorem param_dicts_no_none :
    (∀ append kv, kv ∈ store_log_params append → kv.snd ≠ PyVal.none) ∧
    (∀ offset size kv, kv ∈ get_log_params offset size → kv.snd ≠ PyVal.none) ∧
    (∀ iter kv, kv ∈ run_iter_params iter → kv.snd ≠ PyVal.none) ∧
    (∀ name uid project labels state sort iter kv,
      kv ∈ list_runs_params name (Option.some uid) project labels state sort iter →
      kv.snd ≠ PyVal.none) ∧
    (∀ name project labels state days_ago kv,
      kv ∈ del_runs_params name project labels state days_ago →
      kv.snd ≠ PyVal.none) ∧
    (∀ tag kv, kv ∈ store_artifact_params tag → kv.snd ≠ PyVal.none) ∧
    (∀ key tag kv, kv ∈ del_artifact_params key tag → kv.snd ≠ PyVal.none) ∧
    (∀ name project tag labels kv,
      kv ∈ list_artifacts_params name project tag labels → kv.snd ≠ PyVal.none) ∧
    (∀ name project tag labels days_ago kv,
      kv ∈ del_artifacts_params name project tag labels days_ago →
      kv.snd ≠ PyVal.none) ∧
    (∀ tag kv, kv ∈ function_tag_params tag → kv.snd ≠ PyVal.none) ∧
    (∀ name project tag labels kv,
      kv ∈ list_functions_params name project tag labels → kv.snd ≠ PyVal.none) ∧
    (∀ name project tag offset kv,
      kv ∈ get_builder_status_params name project tag offset →
      kv.snd ≠ PyVal.none) := by
  refine ⟨?_, ?_, ?_, ?_, ?_, ?_, ?_, ?_, ?_, ?_, ?_, ?_⟩
  · intro append kv h
    simp [store_log_params] at h
    subst h; simp
  · intro offset size kv h
    simp [get_log_params] at h
    rcases h with rfl | rfl <;> simp
  · intro iter kv h
    simp [run_iter_params] at h
    subst h; simp
  · intro name uid project labels state sort iter kv h
    simp [list_runs_params] at h
    rcases h with rfl | rfl | rfl | rfl | rfl | rfl | rfl <;> simp
  · intro name project labels state days_ago kv h
    simp [del_runs_params] at h
    rcases h with rfl | rfl | rfl | rfl | rfl <;> simp
  · intro tag kv h
    simp [store_artifact_params] at h
    subst h; simp
  · intro key tag kv h
    simp [del_artifact_params] at h
    rcases h with rfl | rfl <;> simp
  · intro name project tag labels kv h
    simp [list_artifacts_params] at h
    rcases h with rfl | rfl | rfl | rfl <;> simp
  · intro name project tag labels days_ago kv h
    simp [del_artifacts_params] at h
    rcases h with rfl | rfl | rfl | rfl | rfl <;> simp
  · intro tag kv h
    simp [function_tag_params] at h
    subst h; simp
  · intro name project tag labels kv h
    simp [list_functions_params] at h
    rcases h with rfl | rfl | rfl | rfl <;> simp
  · intro name project tag offset kv h
    simp [get_builder_status_params] at h
    rcases h with rfl | rfl | rfl | rfl <;> simp

/-- A request whose params field holds a dict free of `None` values
satisfies `request_no_none`. -/
theorem request_no_none_of (ps0 : Params)
    (h : ∀ kv ∈ ps0, kv.snd ≠ PyVal.none) (req : Request)
    (hp : req.params = Option.some ps0) : request_no_none req := by
  intro ps hps kv hkv
  rw [hp] at hps
  injection hps with h2
  subst h2
  exact h kv hkv

/-- A request carrying no params dict at all satisfies
`request_no_none` vacuously. -/
theorem request_no_params (req : Request)
    (hp : req.params = Option.none) : request_no_none req := by
  intro ps hps
  rw [hp] at hps
  exact absurd hps (by simp)

/-- Claim C2 (amended): every request any resource operation hands to the
transport carries a query-parameter map free of the `None` sentinel —
with the single exception of `list_runs`, whose `uid` entry is the `None`
default when the caller supplies no uid (that entry is only dropped
later, inside the HTTP library's query encoding).  Covered operation by
operation over the requests actually issued: `connect`, `store_log`,
`get_log`, `store_run`, `update_run`, `read_run`, `del_run`, `list_runs`
with a supplied uid, `del_runs`, `store_artifact`, `read_artifact`,
`del_artifact`, `list_artifacts`, `del_artifacts`, `store_function`,
`get_function`, `list_functions`, `remote_builder` (which sends no params
map at all) and `get_builder_status`. -/
theorem ops_requests_no_none_except_list_runs_uid :
    (∀ (c : Client) (tr : TransportResult),
      ∀ req ∈ (connect c tr).snd, request_no_none req) ∧
    (∀ (c : Client) (uid project : String) (body : Option (List Nat))
        (append : Bool) (tr : TransportResult),
      ∀ req ∈ (store_log c uid project body append tr).snd,
        request_no_none req) ∧
    (∀ (c : Client) (uid project : String) (offset size : Int)
        (tr : TransportResult),
      request_no_none (api_call c "GET" (_path_of "log" project uid)
        (Option.some ("get log " ++ project ++ "/" ++ uid))
        (Option.some (get_log_params offset size)) Option.none Option.none
        20 tr).snd) ∧
    (∀ (c : Client) (uid project : String) (iter : Int)
        (struct_json : List Nat) (tr : TransportResult),
      ∀ req ∈ (store_run c uid project iter struct_json tr).snd,
        request_no_none req) ∧
    (∀ (c : Client) (uid project : String) (iter : Int)
        (updates_json : List Nat) (tr : TransportResult),
      ∀ req ∈ (update_run c uid project iter updates_json tr).snd,
        request_no_none req) ∧
    (∀ (c : Client) (uid project : String) (iter : Int)
        (tr : TransportResult),
      ∀ req ∈ (read_run c uid project iter tr).snd, request_no_none req) ∧
    (∀ (c : Client) (uid project : String) (iter : Int)
        (tr : TransportResult),
      ∀ req ∈ (del_run c uid project iter tr).snd, request_no_none req) ∧
    (∀ (c : Client) (name uid project : String)
        (labels : Option (List String)) (state : String) (sort : Bool)
        (last : Int) (iter : Bool) (tr : TransportResult),
      ∀ req ∈ (list_runs c name (Option.some uid) project labels state sort
          last iter tr).snd, request_no_none req) ∧
    (∀ (c : Client) (name project : String) (labels : Option (List String))
        (state : String) (days_ago : Int) (tr : TransportResult),
      ∀ req ∈ (del_runs c name project labels state days_ago tr).snd,
        request_no_none req) ∧
    (∀ (c : Client) (key : String) (artifact_json : List Nat)
        (uid tag project : String) (tr : TransportResult),
      ∀ req ∈ (store_artifact c key artifact_json uid tag project tr).snd,
        request_no_none req) ∧
    (∀ (c : Client) (key tag project : String) (tr : TransportResult),
      ∀ req ∈ (read_artifact c key tag project tr).snd,
        request_no_none req) ∧
    (∀ (c : Client) (key tag project : String) (tr : TransportResult),
      ∀ req ∈ (del_artifact c key tag project tr).snd,
        request_no_none req) ∧
    (∀ (c : Client) (name project tag : String)
        (labels : Option (List String)) (tr : TransportResult),
      ∀ req ∈ (list_artifacts c name project tag labels tr).snd,
        request_no_none req) ∧
    (∀ (c : Client) (name project tag : String)
        (labels : Option (List String)) (days_ago : Int)
        (tr : TransportResult),
      ∀ req ∈ (del_artifacts c name project tag labels days_ago tr).snd,
        request_no_none req) ∧
    (∀ (c : Client) (func_json : List Nat) (name project tag : String)
        (tr : TransportResult),
      ∀ req ∈ (store_function c func_json name project tag tr).snd,
        request_no_none req) ∧
    (∀ (c : Client) (name project tag : String) (tr : TransportResult),
      ∀ req ∈ (get_function c name project tag tr).snd,
        request_no_none req) ∧
    (∀ (c : Client) (name project tag : String)
        (labels : Option (List String)) (tr : TransportResult),
      ∀ req ∈ (list_functions c name project tag labels tr).snd,
        request_no_none req) ∧
    (∀ (c : Client) (req_json : String) (tr : TransportResult),
      (api_call c "POST" "build/function" Option.none Option.none
        Option.none (Option.some req_json) 20 tr).snd.params =
          Option.none) ∧
    (∀ (c : Client) (name project tag : String) (offset : Int)
        (tr : TransportResult),
      request_no_none (api_call c "GET" "build/status" Option.none
        (Option.some (get_builder_status_params name project tag offset))
        Option.none Option.none 20 tr).snd) := by
  refine ⟨?_, ?_, ?_, ?_, ?_, ?_, ?_, ?_, ?_, ?_, ?_, ?_, ?_, ?_, ?_, ?_,
    ?_, ?_, ?_⟩
  · intro c tr req hreq
    simp [connect] at hreq
    subst hreq
    exact request_no_params _ (by simp [api_call])
  · intro c uid project body append tr req hreq
    cases hb : body_empty body with
    | true => simp [store_log, hb] at hreq
    | false =>
      simp [store_log, hb] at hreq
      subst hreq
      exact request_no_none_of _ (param_dicts_no_none.1 append) _
        (by simp [api_call])
  · intro c uid project offset size tr
    exact request_no_none_of _ (param_dicts_no_none.2.1 offset size) _
      (by simp [api_call])
  · intro c uid project iter struct_json tr req hreq
    simp [store_run] at hreq
    subst hreq
    exact request_no_none_of _ (param_dicts_no_none.2.2.1 iter) _
      (by simp [api_call])
  · intro c uid project iter updates_json tr req hreq
    simp [update_run] at hreq
    subst hreq
    exact request_no_none_of _ (param_dicts_no_none.2.2.1 iter) _
      (by simp [api_call])
  · intro c uid project iter tr req hreq
    simp [read_run] at hreq
    subst hreq
    exact request_no_none_of _ (param_dicts_no_none.2.2.1 iter) _
      (by simp [api_call])
  · intro c uid project iter tr req hreq
    simp [del_run] at hreq
    subst hreq
    exact request_no_none_of _ (param_dicts_no_none.2.2.1 iter) _
      (by simp [api_call])
  · intro c name uid project labels state sort last iter tr req hreq
    simp [list_runs] at hreq
    subst hreq
    exact request_no_none_of _
      (param_dicts_no_none.2.2.2.1 name uid project labels state sort iter)
      _ (by simp [api_call])
  · intro c name project labels state days_ago tr req hreq
    simp [del_runs] at hreq
    subst hreq
    exact request_no_none_of _
      (param_dicts_no_none.2.2.2.2.1 name project labels state days_ago) _
      (by simp [api_call])
  · intro c key artifact_json uid tag project tr req hreq
    simp [store_artifact] at hreq
    subst hreq
    exact request_no_none_of _ (param_dicts_no_none.2.2.2.2.2.1 tag) _
      (by simp [api_call])
  · intro c key tag project tr req hreq
    simp [read_artifact] at hreq
    subst hreq
    exact request_no_params _ (by simp [api_call])
  · intro c key tag project tr req hreq
    simp [del_artifact] at hreq
    subst hreq
    exact request_no_none_of _ (param_dicts_no_none.2.2.2.2.2.2.1 key tag)
      _ (by simp [api_call])
  · intro c name project tag labels tr req hreq
    simp [list_artifacts] at hreq
    subst hreq
    exact request_no_none_of _
      (param_dicts_no_none.2.2.2.2.2.2.2.1 name project tag labels) _
      (by simp [api_call])
  · intro c name project tag labels days_ago tr req hreq
    simp [del_artifacts] at hreq
    subst hreq
    exact request_no_none_of _
      (param_dicts_no_none.2.2.2.2.2.2.2.2.1 name project tag labels
        days_ago) _ (by simp [api_call])
  · intro c func_json name project tag tr req hreq
    simp [store_function] at hreq
    subst hreq
    exact request_no_none_of _
      (param_dicts_no_none.2.2.2.2.2.2.2.2.2.1 tag) _ (by simp [api_call])
  · intro c name project tag tr req hreq
    simp [get_function] at hreq
    subst hreq
    exact request_no_none_of _
      (param_dicts_no_none.2.2.2.2.2.2.2.2.2.1 tag) _ (by simp [api_call])
  · intro c name project tag labels tr req hreq
    simp [list_functions] at hreq
    subst hreq
    exact request_no_none_of _
      (param_dicts_no_none.2.2.2.2.2.2.2.2.2.2.1 name project tag labels)
      _ (by simp [api_call])
  · intro c req_json tr
    simp [api_call]
  · intro c name project tag offset tr
    exact request_no_none_of _
      (param_dicts_no_none.2.2.2.2.2.2.2.2.2.2.2 name project tag offset)
      _ (by simp [api_call])

/-- Claim C2 (amended) witness: `store_run`'s single issued request, at
concrete inputs, carries the dict `run_iter_params 3`, and none of its
entries (such as `iter`) is the `None` sentinel; likewise `list_runs`
with a supplied uid. -/
theorem ops_requests_no_none_except_list_runs_uid_witness :
    ("iter", PyVal.int 3).snd ≠ PyVal.none ∧
    ("uid", PyVal.str "u1").snd ≠ PyVal.none :=
  ⟨ops_requests_no_none_except_list_runs_uid.2.2.2.1 c0 "u" "" 3 [123]
      (TransportResult.resp r200)
      ⟨"POST", "http://h/api/run/default/u",
        Option.some (run_iter_params 3), Option.some [123], Option.none,
        Auth.noAuth, 20⟩
      (by decide) (run_iter_params 3) rfl ("iter", PyVal.int 3) (by decide),
   ops_requests_no_none_except_list_runs_uid.2.2.2.2.2.2.2.1 c0 "" "u1" ""
      Option.none "" true 0 false (TransportResult.resp r200)
      ⟨"GET", "http://h/api/runs",
        Option.some (list_runs_params "" (Option.some "u1") "" Option.none
          "" true false),
        Option.none, Option.none, Auth.noAuth, 20⟩
      (by decide)
      (list_runs_params "" (Option.some "u1") "" Option.none "" true false)
      rfl ("uid", PyVal.str "u1") (by decide)⟩

/-- Claim C3 counterexample: the claim's failure set includes every
non-2xx HTTP status, but on a `304 Not Modified` response `api_call`
raises nothing at all — it returns the response normally — so no
`RunDBError` with any message is produced for that transport outcome. -/
theorem api_call_non2xx_no_error_counterexample :
    ¬ (200 ≤ r304.status ∧ r304.status < 300) ∧
    (api_call c0 "GET" "log/default/u" (Option.some "get log /u")
        Option.none Option.none Option.none 20
        (TransportResult.resp r304)).fst = Except.ok r304 ∧
    ∀ e, (api_call c0 "GET" "log/default/u" (Option.some "get log /u")
        Option.none Option.none Option.none 20
        (TransportResult.resp r304)).fst ≠ Except.error e := by
  refine ⟨by decide, rfl, ?_⟩
  intro e h
  rw [show (api_call c0 "GET" "log/default/u" (Option.some "get log /u")
      Option.none Option.none Option.none 20
      (TransportResult.resp r304)).fst = Except.ok r304 from rfl] at h
  exact Except.noConfusion h

/-- Claim C3 (amended): whenever the transport fails in the sense the
code actually rejects — a raised client exception (connection error,
timeout), or an HTTP status in the 4xx/5xx range rejected by
`raise_for_status` (non-2xx statuses outside that range, such as 304,
return normally instead) — `api_call` raises exactly the unified
`RunDBError`; its message is the caller's error context when a non-empty
one was supplied, and otherwise the auto-generated
`METHOD URL, error: cause` string, which spells out both the HTTP method
and the full requested URL. -/
theorem api_call_unified_error (c : Client) (method path : String)
    (ectx : Option String) (params : Option Params) (body : Option (List Nat))
    (json : Option String) (timeout : Nat) (tr : TransportResult)
    (hfail : transport_fails tr) :
    ∃ msg,
      (api_call c method path ectx params body json timeout tr).fst =
        Except.error (PyExc.runDBError msg) ∧
      (∀ s, ectx = Option.some s → s ≠ "" → msg = s) ∧
      (ectx = Option.none →
        ∃ cause, msg = method ++ " " ++ api_url c path ++ ", error: " ++ cause) := by
  cases tr with
  | exc cause =>
    refine ⟨api_error_message ectx method (api_url c path) cause, rfl, ?_, ?_⟩
    · intro s hs hne
      subst hs
      simp [api_error_message, hne]
    · intro hn
      subst hn
      exact ⟨cause, rfl⟩
  | resp r =>
    have hfail2 : 400 ≤ r.status ∧ r.status < 600 := hfail
    obtain ⟨cause, hc⟩ :
        ∃ cause, raise_for_status_error r (api_url c path) = Option.some cause := by
      unfold raise_for_status_error
      split_ifs with ha hb
      · exact ⟨_, rfl⟩
      · exact ⟨_, rfl⟩
      · exact absurd hfail2 (by omega)
    refine ⟨api_error_message ectx method (api_url c path) cause, ?_, ?_, ?_⟩
    · simp [api_call, hc]
    · intro s hs hne
      subst hs
      simp [api_error_message, hne]
    · intro hn
      subst hn
      exact ⟨cause, rfl⟩

/-- Claim C3 witness: a timeout with no error context yields the
auto-generated message for `GET http://h/api/runs`; a 404 with an error
context yields that context. -/
theorem api_call_unified_error_witness :
    (∃ msg,
      (api_call c0 "GET" "runs" Option.none Option.none Option.none
          Option.none 20 (TransportResult.exc "timeout")).fst =
        Except.error (PyExc.runDBError msg) ∧
      (∀ s, (Option.none : Option String) = Option.some s → s ≠ "" → msg = s) ∧
      ((Option.none : Option String) = Option.none →
        ∃ cause, msg = "GET" ++ " " ++ api_url c0 "runs" ++ ", error: " ++ cause)) ∧
    (∃ msg,
      (api_call c0 "GET" "runs" (Option.some "list runs") Option.none
          Option.none Option.none 20
          (TransportResult.resp ⟨404, "Not Found", [], []⟩)).fst =
        Except.error (PyExc.runDBError msg) ∧
      (∀ s, (Option.some "list runs" : Option String) = Option.some s →
        s ≠ "" → msg = s) ∧
      ((Option.some "list runs" : Option String) = Option.none →
        ∃ cause, msg = "GET" ++ " " ++ api_url c0 "runs" ++ ", error: " ++ cause)) :=
  ⟨api_call_unified_error c0 "GET" "runs" Option.none Option.none Option.none
      Option.none 20 (TransportResult.exc "timeout") trivial,
   api_call_unified_error c0 "GET" "runs" (Option.some "list runs") Option.none
      Option.none Option.none 20 (TransportResult.resp ⟨404, "Not Found", [], []⟩)
      ⟨by decide, by decide⟩⟩

/-- Claim C6 counterexample: `raise_for_status` does not reject every
non-2xx response — a `304 Not Modified` passes through, so `api_call`
returns normally with a response whose status is not in the 2xx range. -/
theorem api_call_ok_non2xx_counterexample :
    (api_call c0 "GET" "runs" Option.none Option.none Option.none Option.none
        20 (TransportResult.resp r304)).fst = Except.ok r304 ∧
    ¬ (200 ≤ r304.status ∧ r304.status < 300) :=
  ⟨rfl, by decide⟩

/-- Claim C6 (amended): whenever `api_call` returns normally, the returned
response's status is outside the 4xx/5xx range `raise_for_status`
rejects (though not necessarily 2xx, e.g. 304), hence `resp.ok` is true
— so the `not resp.ok` branches of `remote_builder` and
`get_builder_status` that raise the bad-response `ValueError` are
unreachable: no execution reaches them. -/
theorem api_call_ok_bad_response_unreachable :
    (∀ (c : Client) (method path : String) (ectx : Option String)
        (params : Option Params) (body : Option (List Nat))
        (json : Option String) (timeout : Nat) (tr : TransportResult)
        (r : Response),
      (api_call c method path ectx params body json timeout tr).fst =
        Except.ok r →
      resp_ok r = true ∧ ¬ (400 ≤ r.status ∧ r.status < 600)) ∧
    (∀ (c : Client) (req_json : String) (tr : TransportResult),
      remote_builder c req_json tr ≠
        Except.error (PyExc.valueError "bad function run response")) ∧
    (∀ (c : Client) (name project tag : String) (offset : Int)
        (tr : TransportResult),
      get_builder_status c name project tag offset tr ≠
        Except.error (PyExc.valueError "bad function run response")) := by
  have hok : ∀ (c : Client) (method path : String) (ectx : Option String)
      (params : Option Params) (body : Option (List Nat))
      (json : Option String) (timeout : Nat) (tr : TransportResult)
      (r : Response),
      (api_call c method path ectx params body json timeout tr).fst =
        Except.ok r → resp_ok r = true := by
    intro c method path ectx params body json timeout tr r h
    exact resp_ok_of_no_raise r (api_url c path)
      (api_call_ok_inv c method path ectx params body json timeout tr r h)
  refine ⟨?_, ?_, ?_⟩
  · intro c method path ectx params body json timeout tr r h
    have h1 := hok c method path ectx params body json timeout tr r h
    exact ⟨h1, of_decide_eq_true h1⟩
  · intro c req_json tr hbad
    unfold remote_builder at hbad
    cases hc : (api_call c "POST" "build/function" Option.none Option.none
        Option.none (Option.some req_json) 20 tr).fst with
    | error e =>
      rw [hc] at hbad
      obtain ⟨msg, rfl⟩ := api_call_error_runDB c "POST" "build/function"
        Option.none Option.none Option.none (Option.some req_json) 20 tr e hc
      simp at hbad
    | ok resp =>
      rw [hc] at hbad
      have h1 := hok c "POST" "build/function" Option.none Option.none
        Option.none (Option.some req_json) 20 tr resp hc
      simp [h1] at hbad
  · intro c name project tag offset tr hbad
    unfold get_builder_status at hbad
    cases hc : (api_call c "GET" "build/status" Option.none
        (Option.some (get_builder_status_params name project tag offset))
        Option.none Option.none 20 tr).fst with
    | error e =>
      rw [hc] at hbad
      obtain ⟨msg, rfl⟩ := api_call_error_runDB c "GET" "build/status"
        Option.none (Option.some (get_builder_status_params name project tag offset))
        Option.none Option.none 20 tr e hc
      simp at hbad
    | ok resp =>
      rw [hc] at hbad
      have h1 := hok c "GET" "build/status" Option.none
        (Option.some (get_builder_status_params name project tag offset))
        Option.none Option.none 20 tr resp hc
      simp [h1] at hbad

/-- Claim C6 (amended) witness: a concrete normal return of `api_call`
(on a 200 response) is `ok` and outside the rejected status range. -/
theorem api_call_ok_bad_response_unreachable_witness :
    resp_ok r200 = true ∧ ¬ (400 ≤ r200.status ∧ r200.status < 600) :=
  api_call_ok_bad_response_unreachable.1 c0 "GET" "runs" Option.none
    Option.none Option.none Option.none 20 (TransportResult.resp r200) r200 rfl

/-- Claim C7: on a response that passes `raise_for_status`, `get_log`
returns a `(status, bytes)` pair exactly when the header map is
non-empty; with an empty header map the source's `state` local is never
assigned and the return statement raises `UnboundLocalError`. -/
theorem get_log_header_dependence (c : Client) (uid project : String)
    (offset size : Int) (resp : Response) (hok : resp.status < 400) :
    (resp.headers.isEmpty = true →
      get_log c uid project offset size (TransportResult.resp resp) =
        Except.error PyExc.unboundLocalError) ∧
    (resp.headers.isEmpty = false →
      get_log c uid project offset size (TransportResult.resp resp) =
        Except.ok (headers_get resp.headers "function_status" "", resp.content)) := by
  have hcall : (api_call c "GET" (_path_of "log" project uid)
      (Option.some ("get log " ++ project ++ "/" ++ uid))
      (Option.some (get_log_params offset size)) Option.none Option.none 20
      (TransportResult.resp resp)).fst = Except.ok resp :=
    api_call_ok_eval c "GET" (_path_of "log" project uid)
      (Option.some ("get log " ++ project ++ "/" ++ uid))
      (Option.some (get_log_params offset size)) Option.none Option.none 20
      resp (rfs_none_of_lt_400 resp _ hok)
  constructor <;> intro hE <;> simp [get_log, hcall, hE]

/-- Claim C7 witness: a headerless 200 response makes `get_log` fail with
the unbound-local error, while the same response with a status header
yields the `(status, bytes)` pair. -/
theorem get_log_header_dependence_witness :
    get_log c0 "u" "" 0 0 (TransportResult.resp resp_nohdr) =
      Except.error PyExc.unboundLocalError ∧
    get_log c0 "u" "" 0 0 (TransportResult.resp resp_hdr) =
      Except.ok ("running", [65]) :=
  ⟨(get_log_header_dependence c0 "u" "" 0 0 resp_nohdr (by decide)).1 rfl,
   (get_log_header_dependence c0 "u" "" 0 0 resp_hdr (by decide)).2 rfl⟩

/-- Claim C8: `store_log` with an empty or absent body issues no transport
request at all and returns without error; with a non-empty body the
requests issued are exactly one POST. -/
theorem store_log_effects (c : Client) (uid project : String)
    (body : Option (List Nat)) (append : Bool) (tr : TransportResult) :
    ((store_log c uid project body append tr).snd.map Request.method =
      if body_empty body then [] else ["POST"]) ∧
    (body_empty body = true →
      store_log c uid project body append tr = (Except.ok (), [])) := by
  cases hb : body_empty body with
  | true => simp [store_log, hb]
  | false =>
    constructor
    · simp [store_log, hb, api_call]
    · intro h
      exact Bool.noConfusion h

/-- Claim C8 witness: an absent body issues zero requests and succeeds; a
one-byte body issues exactly one POST. -/
theorem store_log_effects_witness :
    store_log c0 "u" "" Option.none false (TransportResult.exc "t") =
      (Except.ok (), []) ∧
    (store_log c0 "u" "" (Option.some [72]) false
        (TransportResult.resp r200)).snd.map Request.method = ["POST"] :=
  ⟨(store_log_effects c0 "u" "" Option.none false (TransportResult.exc "t")).2
      rfl,
   (store_log_effects c0 "u" "" (Option.some [72]) false
      (TransportResult.resp r200)).1⟩

/-- Claim C10 counterexample: two builder-status responses that differ
only in the `builder_pod` header produce identical results — the pod
name is read into a local and discarded, so it is not available in the
result, refuting the claim that all three extracted pieces are. -/
theorem get_builder_status_pod_not_in_result :
    get_builder_status c0 "f" "" "" (-1) (TransportResult.resp respA) =
      get_builder_status c0 "f" "" "" (-1) (TransportResult.resp respB) ∧
    (get_builder_status_locals respA).snd ≠ (get_builder_status_locals respB).snd ∧
    get_builder_status c0 "f" "" "" (-1) (TransportResult.resp respA) =
      Except.ok ("ready", [66]) :=
  ⟨rfl, by decide, rfl⟩

/-- Claim C10 (amended): `get_builder_status` (GET on the fixed path
`build/status`) reads both the `function_status` and `builder_pod`
headers into its locals, but its result carries only the status together
with the raw body; the pod name is discarded. -/
theorem get_builder_status_extracts (c : Client) (name project tag : String)
    (offset : Int) (resp : Response) (hok : resp.status < 400)
    (hh : resp.headers.isEmpty = false) :
    get_builder_status_locals resp =
      (headers_get resp.headers "function_status" "",
       headers_get resp.headers "builder_pod" "") ∧
    get_builder_status c name project tag offset (TransportResult.resp resp) =
      Except.ok (headers_get resp.headers "function_status" "", resp.content) := by
  have hcall : (api_call c "GET" "build/status" Option.none
      (Option.some (get_builder_status_params name project tag offset))
      Option.none Option.none 20 (TransportResult.resp resp)).fst =
      Except.ok resp :=
    api_call_ok_eval c "GET" "build/status" Option.none
      (Option.some (get_builder_status_params name project tag offset))
      Option.none Option.none 20 resp (rfs_none_of_lt_400 resp _ hok)
  have hro : resp_ok resp = true :=
    resp_ok_of_no_raise resp (api_url c "build/status")
      (rfs_none_of_lt_400 resp _ hok)
  constructor
  · simp [get_builder_status_locals, hh]
  · simp [get_builder_status, hcall, hro, get_builder_status_locals, hh]

/-- Claim C10 (amended) witness: on a concrete ok response the locals are
`("ready", "pod-7")` but the result is `("ready", body)` only. -/
theorem get_builder_status_extracts_witness :
    get_builder_status_locals respA = ("ready", "pod-7") ∧
    get_builder_status c0 "f" "" "" (-1) (TransportResult.resp respA) =
      Except.ok ("ready", [66]) :=
  ⟨(get_builder_status_extracts c0 "f" "" "" (-1) respA (by decide) rfl).1,
   (get_builder_status_extracts c0 "f" "" "" (-1) respA (by decide) rfl).2⟩

end HTTPRunDB
